import Mathlib

/-!
Verification of the CrowdStrike MCP server's response-normalization and
tool-dispatch layer, shallowly embedded from
`mcp_crowdstrike/server.py`, `mcp_crowdstrike/utils.py` and
`mcp_crowdstrike/tools/intel.py`.

Python dictionaries and JSON bodies are modelled by a small `Json` type;
Python exceptions are modelled by `Except String`, the `String` being the
text of `str(exception)` as a Python `f"Error: {str(e)}"` handler would
render it.
-/

namespace Crowdstrike

/-- JSON-like Python values: the payloads flowing through the server.
Numbers are integers (the only numbers the embedded code manipulates are
status codes and counts). -/
inductive Json where
  | null : Json
  | bool (b : Bool) : Json
  | num (n : Int) : Json
  | str (s : String) : Json
  | arr (items : List Json) : Json
  | obj (fields : List (String × Json)) : Json

/-- First-match association-list lookup, the model of Python dict lookup
(keys are unique in a dict, so first-match is exact). -/
def lookupField : List (String × Json) → String → Option Json
  | [], _ => none
  | (k, v) :: rest, key => if k = key then some v else lookupField rest key

/-- Python `d.get(key, default)` on a dict whose fields are known. -/
def dictGetD (fields : List (String × Json)) (key : String) (default : Json) : Json :=
  (lookupField fields key).getD default

/-- Model of the `str(exception)` text Python produces when `.get` is called
on a value that is not a dict (an `AttributeError`; the concrete Python text
also names the value's type). -/
def noGetAttrMsg : String := "object has no attribute \x27get\x27"

/-- Python `v.get(key, default)`: total on dicts, raises `AttributeError`
on anything else. -/
def pyGetD (j : Json) (key : String) (default : Json) : Except String Json :=
  match j with
  | Json.obj fields => Except.ok (dictGetD fields key default)
  | _ => Except.error noGetAttrMsg

/-- Python `v[0]`: first element of a list (raising `IndexError` on an empty
list, as `str(IndexError(...))` renders it), first character of a string,
`KeyError(0)` on a dict, `TypeError` otherwise. -/
def pyIndex0 : Json → Except String Json
  | Json.arr [] => Except.error "list index out of range"
  | Json.arr (x :: _) => Except.ok x
  | Json.str ⟨[]⟩ => Except.error "string index out of range"
  | Json.str ⟨c :: _⟩ => Except.ok (Json.str (String.mk [c]))
  | Json.obj _ => Except.error "0"
  | _ => Except.error "object is not subscriptable"

/-- Python truthiness (`if not v:`) of a JSON-like value. -/
def pyFalsy : Json → Bool
  | Json.null => true
  | Json.bool b => !b
  | Json.num n => n = 0
  | Json.str s => s.isEmpty
  | Json.arr xs => xs.isEmpty
  | Json.obj fs => fs.isEmpty

/-- Does `pre` occur at the start of the character list `l`? -/
def listStarts : List Char → List Char → Bool
  | [], _ => true
  | _ :: _, [] => false
  | a :: as, b :: bs => a = b && listStarts as bs

/-- Does `needle` occur anywhere inside the character list? -/
def listContains (needle : List Char) : List Char → Bool
  | [] => needle.isEmpty
  | b :: bs => listStarts needle (b :: bs) || listContains needle bs

/-- Python `needle in hay` on strings. -/
def strContainsB (hay needle : String) : Bool :=
  listContains needle.data hay.data

/-- ASCII lower case of one character, as Python `str.lower` acts on the
ASCII error messages the server classifies. -/
def charLower (c : Char) : Char :=
  if 65 ≤ c.toNat ∧ c.toNat ≤ 90 then Char.ofNat (c.toNat + 32) else c

/-- Python `s.lower()`. -/
def strLower (s : String) : String :=
  String.mk (s.data.map charLower)

/-- Python `s.startswith(pre)`. -/
def strStartsB (s pre : String) : Bool :=
  listStarts pre.data s.data

/-- `needle` occurs as a contiguous substring of `hay`. -/
def strContains (hay needle : String) : Prop :=
  ∃ s t, s ++ needle.data ++ t = hay.data

mutual

/-- Python `repr` of a JSON-like value (string escaping inside `repr` is
omitted: no value the server manipulates contains a quote). -/
def pyRepr : Json → String
  | Json.null => "None"
  | Json.bool true => "True"
  | Json.bool false => "False"
  | Json.num n => toString n
  | Json.str s => "\x27" ++ s ++ "\x27"
  | Json.arr xs => "[" ++ pyReprItems xs ++ "]"
  | Json.obj fs => "\x7b" ++ pyReprFields fs ++ "\x7d"

/-- Comma-separated `repr`s of list elements. -/
def pyReprItems : List Json → String
  | [] => ""
  | [x] => pyRepr x
  | x :: y :: rest => pyRepr x ++ ", " ++ pyReprItems (y :: rest)

/-- Comma-separated `repr`s of dict entries. -/
def pyReprFields : List (String × Json) → String
  | [] => ""
  | [(k, v)] => "\x27" ++ k ++ "\x27: " ++ pyRepr v
  | (k, v) :: g :: rest =>
      "\x27" ++ k ++ "\x27: " ++ pyRepr v ++ ", " ++ pyReprFields (g :: rest)

end

/-- Python `str()` as an f-string interpolation applies it: identity on
strings, `repr`-style rendering on containers and atoms. -/
def pyStr : Json → String
  | Json.str s => s
  | j => pyRepr j

/-- One hexadecimal digit, lower case. -/
def hexDigit (n : Nat) : Char :=
  if n < 10 then Char.ofNat (48 + n) else Char.ofNat (87 + n % 16)

/-- Four-digit hexadecimal rendering, as in a JSON `\uXXXX` escape. -/
def hex4 (n : Nat) : String :=
  String.mk [hexDigit (n / 4096 % 16), hexDigit (n / 256 % 16),
    hexDigit (n / 16 % 16), hexDigit (n % 16)]

/-- JSON string escaping as Python `json.dumps` performs it
(`ensure_ascii=True`). -/
def jsonEscapeChar (c : Char) : String :=
  if c = '"' then "\\\""
  else if c = '\\' then "\\\\"
  else if c = '\n' then "\\n"
  else if c = '\t' then "\\t"
  else if c = '\r' then "\\r"
  else if c.toNat = 8 then "\\b"
  else if c.toNat = 12 then "\\f"
  else if c.toNat < 32 ∨ c.toNat > 126 then "\\u" ++ hex4 c.toNat
  else String.mk [c]

/-- Escape a whole string for a JSON string literal. -/
def jsonEscape (s : String) : String :=
  String.join (s.data.map jsonEscapeChar)

/-- `2*lvl` spaces: the indentation Python `json.dumps(..., indent=2)`
puts before an element nested at depth `lvl`. -/
def pad (lvl : Nat) : String :=
  String.mk (List.replicate (2 * lvl) ' ')

mutual

/-- Python `json.dumps(v, indent=2)` at nesting depth `lvl`: containers
spread over lines, `": "` after keys, `","` between entries. -/
def jsonDumpsAt : Json → Nat → String
  | Json.null, _ => "null"
  | Json.bool true, _ => "true"
  | Json.bool false, _ => "false"
  | Json.num n, _ => toString n
  | Json.str s, _ => "\"" ++ jsonEscape s ++ "\""
  | Json.arr [], _ => "[]"
  | Json.arr (x :: xs), lvl =>
      "[\n" ++ jsonDumpsItems (x :: xs) (lvl + 1) ++ "\n" ++ pad lvl ++ "]"
  | Json.obj [], _ => "\x7b\x7d"
  | Json.obj (f :: fs), lvl =>
      "\x7b\n" ++ jsonDumpsFields (f :: fs) (lvl + 1) ++ "\n" ++ pad lvl ++ "\x7d"

/-- Lines of an array body. -/
def jsonDumpsItems : List Json → Nat → String
  | [], _ => ""
  | [x], lvl => pad lvl ++ jsonDumpsAt x lvl
  | x :: y :: rest, lvl =>
      pad lvl ++ jsonDumpsAt x lvl ++ ",\n" ++ jsonDumpsItems (y :: rest) lvl

/-- Lines of an object body. -/
def jsonDumpsFields : List (String × Json) → Nat → String
  | [], _ => ""
  | [(k, v)], lvl => pad lvl ++ "\"" ++ jsonEscape k ++ "\": " ++ jsonDumpsAt v lvl
  | (k, v) :: g :: rest, lvl =>
      pad lvl ++ "\"" ++ jsonEscape k ++ "\": " ++ jsonDumpsAt v lvl ++ ",\n" ++
        jsonDumpsFields (g :: rest) lvl

end

/-- Python `json.dumps(v, indent=2)`. -/
def jsonDumps (j : Json) : String := jsonDumpsAt j 0

/-- A raw FalconPy response dictionary: `status_code` and `body` entries,
either of which may be absent (`response.get(...)` is how the code reads
them). -/
structure UpstreamResponse where
  status_code : Option Int
  body : Option Json

/-- `response.get("body", {})`. -/
def bodyD (r : UpstreamResponse) : Json :=
  r.body.getD (Json.obj [])

/-- The f-string rendering of `response.get("status_code")`: `str(None)`
when the key is absent. -/
def statusStr (r : UpstreamResponse) : String :=
  match r.status_code with
  | none => "None"
  | some n => toString n

/-- The generic error branch shared by both `format_response` versions:
`f"API Error: {response.get('status_code')} - "
 f"{response.get('body', {}).get('errors', ['Unknown error'])}"`.
The inner `.get` raises if the body is not a dict. -/
def generic_error (r : UpstreamResponse) : Except String String :=
  match pyGetD (bodyD r) "errors" (Json.arr [Json.str "Unknown error"]) with
  | Except.error e => Except.error e
  | Except.ok errors =>
      Except.ok ("API Error: " ++ statusStr r ++ " - " ++ pyStr errors)

/-- The error-message extraction both 403 branches perform:
`response.get("body", {}).get("errors", [{"message": "Unknown error"}])[0]
 .get("message", "")`.
Returns the raw value found under `"message"`; raises (as `Except.error`)
where the chained subscript or attribute access would. -/
def extract_error_field (r : UpstreamResponse) : Except String Json :=
  match pyGetD (bodyD r) "errors"
      (Json.arr [Json.obj [("message", Json.str "Unknown error")]]) with
  | Except.error e => Except.error e
  | Except.ok errors =>
      match pyIndex0 errors with
      | Except.error e => Except.error e
      | Except.ok first => pyGetD first "message" (Json.str "")

/-- `scopes_info = required_scopes or "appropriate API scopes"`
(Python `or` falls back on any falsy value, in particular `""`). -/
def scopes_info_of (required_scopes : Option String) : String :=
  match required_scopes with
  | none => "appropriate API scopes"
  | some s => if s.isEmpty then "appropriate API scopes" else s

/-- The multi-line guidance string `server.py` builds for a scope-related
403, chunked exactly as in the source f-string. -/
def access_denied_message (scopes_info error_message : String) : String :=
  "API Access Denied (403)" ++
  ": You don\x27t have the required permissions.\n\n" ++
  "Required scope(s): " ++ scopes_info ++ "\n\n" ++
  "To resolve this issue:\n" ++
  "1. Check that your API client has been granted the " ++ scopes_info ++
    " permission(s)\n" ++
  "2. Verify your CrowdStrike subscription includes access to this feature\n" ++
  "3. Contact your CrowdStrike administrator for assistance\n\n" ++
  "Original error: " ++ error_message

/-- `format_response` of `mcp_crowdstrike/server.py` (the version the tool
handlers import). Control flow of the source:
an `if status == 403` branch that returns only when the extracted message
matches one of the two authorization substrings, an
`elif status not in (200, 201)` branch returning the generic error, and a
final `return json.dumps(body, indent=2)` that both the success codes and a
non-matching 403 reach. `error_message.lower()` raises `AttributeError`
when the extracted message is not a string. -/
def format_response_server (r : UpstreamResponse) (required_scopes : Option String) :
    Except String String :=
  if r.status_code = some 403 then
    match extract_error_field r with
    | Except.error e => Except.error e
    | Except.ok msgv =>
        match msgv with
        | Json.str error_message =>
            if strContainsB (strLower error_message) "access denied"
                || strContainsB (strLower error_message) "authorization failed" then
              Except.ok (access_denied_message (scopes_info_of required_scopes)
                error_message)
            else
              Except.ok (jsonDumps (bodyD r))
        | _ => Except.error "object has no attribute \x27lower\x27"
  else if r.status_code = some 200 ∨ r.status_code = some 201 then
    Except.ok (jsonDumps (bodyD r))
  else
    generic_error r

/-- The guidance string `utils.py` builds for every 403, chunked exactly
as in the source f-string. -/
def access_denied_message_utils (scopes_info error_message : String) : String :=
  "API Access Denied (403)" ++
  ": You don\x27t have the required permissions.\n" ++
  "Required scope(s): " ++ scopes_info ++ "\n" ++
  "To resolve this issue: Check API client permissions or contact your administrator.\n" ++
  "Original error: " ++ error_message

/-- `format_response` of `mcp_crowdstrike/utils.py`: an
`if status not in (200, 201)` branch containing an unconditional
`if status == 403` guidance return (no substring classification), then the
generic error; the success codes reach `json.dumps(body, indent=2)`.
The extracted message is only interpolated into an f-string, so a
non-string message is rendered by `str()`, not an error. -/
def format_response_utils (r : UpstreamResponse) (required_scopes : Option String) :
    Except String String :=
  if ¬ (r.status_code = some 200 ∨ r.status_code = some 201) then
    if r.status_code = some 403 then
      match extract_error_field r with
      | Except.error e => Except.error e
      | Except.ok msgv =>
          Except.ok (access_denied_message_utils (scopes_info_of required_scopes)
            (pyStr msgv))
    else
      generic_error r
  else
    Except.ok (jsonDumps (bodyD r))

/-- Scope constant for Intel actor operations (`tools/intel.py`). -/
def INTEL_ACTORS_READ_SCOPE : String := "ACTORS (FALCON INTELLIGENCE) READ"

/-- Scope constant for Intel indicator operations (`tools/intel.py`). -/
def INTEL_IOC_READ_SCOPE : String := "INDICATORS (FALCON INTELLIGENCE) READ"

/-- `response.get("body", {}).get("resources", [])` as every handler
performs it. -/
def resourcesOf (r : UpstreamResponse) : Except String Json :=
  pyGetD (bodyD r) "resources" (Json.arr [])

/-- A handler's `return format_response(response, required_scopes=scope)`
inside its `try` block: an exception raised inside `format_response` is
caught by the handler's `except` and rendered `f"Error: {str(e)}"`. -/
def formatOrCaught (r : UpstreamResponse) (scope : String) : String :=
  match format_response_server r (some scope) with
  | Except.ok s => s
  | Except.error e => "Error: " ++ e

/-- `list_threat_actors` of `tools/intel.py`, with the outbound
`falcon.query_actor_entities(limit=limit)` call mocked by its outcome:
either the response dictionary or a raised exception's text. -/
def list_threat_actors (call : Except String UpstreamResponse) : String :=
  match call with
  | Except.error e => "Error: " ++ e
  | Except.ok response =>
      if response.status_code ≠ some 200 then
        formatOrCaught response INTEL_ACTORS_READ_SCOPE
      else
        match resourcesOf response with
        | Except.error e => "Error: " ++ e
        | Except.ok actors =>
            if pyFalsy actors then "No threat actors found"
            else jsonDumps (Json.obj [("actors", actors)])

/-- One `if param: filters.append(mk(param))` step of the filter builder in
`search_iocs`: a parameter contributes a clause exactly when it is truthy
(present and non-empty). -/
def optClause (v : Option String) (mk : String → String) : List String :=
  match v with
  | none => []
  | some s => if s.isEmpty then [] else [mk s]

/-- The filter builder of `search_iocs` (`tools/intel.py` lines 99-115):
seven sequential truthiness-guarded appends in source order, then
`"+".join(filters) if filters else None`. -/
def search_iocs_filter (indicator_value indicator_type malware_family threat_type
    malicious_confidence published_after mitre_technique : Option String) :
    Option String :=
  let filters :=
    optClause indicator_value (fun s => "indicator:\x27" ++ s ++ "\x27") ++
    optClause indicator_type (fun s => "type:\x27" ++ s ++ "\x27") ++
    optClause malware_family (fun s => "malware_families:\x27" ++ s ++ "\x27") ++
    optClause threat_type (fun s => "threat_types:\x27" ++ s ++ "\x27") ++
    optClause malicious_confidence (fun s => "malicious_confidence:\x27" ++ s ++ "\x27") ++
    optClause published_after (fun s => "published_date:>\x27" ++ s ++ "\x27") ++
    optClause mitre_technique (fun s => "labels.name:*\x27MitreATTCK/*" ++ s ++ "*\x27")
  if filters.isEmpty then none else some (String.intercalate "+" filters)

/-- `search_iocs` of `tools/intel.py`, with the upstream client mocked as a
function from the filter argument the handler passes to
`falcon.query_indicator_entities` to the call's outcome. -/
def search_iocs (client : Option String → Except String UpstreamResponse)
    (indicator_value indicator_type malware_family threat_type
      malicious_confidence published_after mitre_technique : Option String) :
    String :=
  match client (search_iocs_filter indicator_value indicator_type malware_family
      threat_type malicious_confidence published_after mitre_technique) with
  | Except.error e => "Error: " ++ e
  | Except.ok response =>
      if response.status_code ≠ some 200 then
        formatOrCaught response INTEL_IOC_READ_SCOPE
      else
        match resourcesOf response with
        | Except.error e => "Error: " ++ e
        | Except.ok iocs =>
            if pyFalsy iocs then "No IOCs found matching the criteria"
            else jsonDumps (Json.obj [("iocs", iocs)])

/-- Python iteration (`for label in v`): lists yield elements, strings yield
one-character strings, dicts yield their keys, atoms raise `TypeError`. -/
def pyIterList (v : Json) : Except String (List Json)  :=
  match v with
  | Json.arr xs => Except.ok xs
  | Json.str s => Except.ok (s.data.map (fun c => Json.str (String.mk [c])))
  | Json.obj fields => Except.ok (fields.map (fun kv => Json.str kv.fst))
  | _ => Except.error "object is not iterable"

/-- `label["name"]` in the `mitre_techniques` comprehension of
`get_ioc_details`: a direct subscript, raising `KeyError("name")` (whose
`str()` is `'name'` in quotes) when the key is absent and `TypeError` when
the label is not a dict. -/
def labelName (label : Json) : Except String Json :=
  match label with
  | Json.obj fields =>
      match lookupField fields "name" with
      | some v => Except.ok v
      | none => Except.error "\x27name\x27"
  | _ => Except.error "object is not subscriptable"

/-- The comprehension
`[label["name"] for label in labels if label["name"].startswith("MitreATTCK/")]`
over an already-materialized label list: elements are processed left to
right, and a label whose `"name"` is absent or not a string raises before
any later label is looked at. -/
def collect_mitre : List Json → Except String (List Json)
  | [] => Except.ok []
  | l :: rest =>
      match labelName l with
      | Except.error e => Except.error e
      | Except.ok v =>
          match v with
          | Json.str s =>
              match collect_mitre rest with
              | Except.error e => Except.error e
              | Except.ok tail =>
                  Except.ok (if strStartsB s "MitreATTCK/" then Json.str s :: tail
                    else tail)
          | _ => Except.error "object has no attribute \x27startswith\x27"

/-- The `details` dictionary `get_ioc_details` builds from the first
matching record, in source field order; only the `mitre_techniques`
comprehension (and a non-dict record) can raise. -/
def buildDetails (ioc : Json) : Except String Json :=
  match ioc with
  | Json.obj fields =>
      match pyIterList (dictGetD fields "labels" (Json.arr [])) with
      | Except.error e => Except.error e
      | Except.ok labels =>
          match collect_mitre labels with
          | Except.error e => Except.error e
          | Except.ok mitre =>
              Except.ok (Json.obj [
                ("indicator", dictGetD fields "indicator" Json.null),
                ("type", dictGetD fields "type" Json.null),
                ("malicious_confidence", dictGetD fields "malicious_confidence" Json.null),
                ("published_date", dictGetD fields "published_date" Json.null),
                ("last_updated", dictGetD fields "last_updated" Json.null),
                ("malware_families", dictGetD fields "malware_families" (Json.arr [])),
                ("threat_types", dictGetD fields "threat_types" (Json.arr [])),
                ("actors", dictGetD fields "actors" (Json.arr [])),
                ("mitre_techniques", Json.arr mitre),
                ("reports", dictGetD fields "reports" (Json.arr [])),
                ("relations", dictGetD fields "relations" (Json.arr []))])
  | _ => Except.error noGetAttrMsg

/-- `get_ioc_details` of `tools/intel.py`, with the upstream client mocked
as a function from the filter the handler passes
(`f"indicator:'{indicator_value}'"`) to the call's outcome. -/
def get_ioc_details (client : Option String → Except String UpstreamResponse)
    (indicator_value : String) : String :=
  match client (some ("indicator:\x27" ++ indicator_value ++ "\x27")) with
  | Except.error e => "Error: " ++ e
  | Except.ok response =>
      if response.status_code ≠ some 200 then
        formatOrCaught response INTEL_IOC_READ_SCOPE
      else
        match resourcesOf response with
        | Except.error e => "Error: " ++ e
        | Except.ok iocs =>
            if pyFalsy iocs then "No IOC found for indicator: " ++ indicator_value
            else
              match pyIndex0 iocs with
              | Except.error e => "Error: " ++ e
              | Except.ok ioc =>
                  match buildDetails ioc with
                  | Except.error e => "Error: " ++ e
                  | Except.ok details =>
                      jsonDumps (Json.obj [("ioc_details", details)])

/-- `""` gives `none`, anything else is kept: the normal form the
truthiness guards of the filter builder induce on a parameter. -/
def blankToNone : Option String → Option String
  | none => none
  | some s => if s.isEmpty then none else some s

/-! ### Helper lemmas -/

theorem str_data_append (a b : String) : (a ++ b).data = a.data ++ b.data := rfl

theorem strContains_self (s : String) : strContains s s :=
  ⟨[], [], by simp⟩

theorem strContains_empty (s : String) : strContains s "" :=
  ⟨[], s.data, by simp⟩

theorem strContains_appendRight (a b n : String) (h : strContains a n) :
    strContains (a ++ b) n := by
  obtain ⟨s, t, hst⟩ := h
  exact ⟨s, t ++ b.data, by rw [str_data_append, ← hst]; simp⟩

theorem strContains_appendLeft (a b n : String) (h : strContains b n) :
    strContains (a ++ b) n := by
  obtain ⟨s, t, hst⟩ := h
  exact ⟨a.data ++ s, t, by rw [str_data_append, ← hst]; simp⟩

theorem optClause_blankToNone (v : Option String) (mk : String → String) :
    optClause (blankToNone v) mk = optClause v mk := by
  cases v with
  | none => rfl
  | some s => by_cases h : s.isEmpty <;> simp [blankToNone, optClause, h]

/-! ### Concrete responses used by the claim theorems -/

/-- A 403 whose single error message matches neither authorization
substring. -/
def resp_403_nonmatching : UpstreamResponse :=
  ⟨some 403, some (Json.obj [("errors",
    Json.arr [Json.obj [("message", Json.str "Forbidden by policy")]])])⟩

/-- A 403 whose body carries an errors key holding the empty list. -/
def resp_403_empty_errors : UpstreamResponse :=
  ⟨some 403, some (Json.obj [("errors", Json.arr [])])⟩

/-- A 201 carrying one well-formed actor resource. -/
def resp_201_one_actor : UpstreamResponse :=
  ⟨some 201, some (Json.obj [("resources", Json.arr [Json.obj [
    ("id", Json.str "adversary-1"), ("name", Json.str "SOME BEAR")]])])⟩

/-- A 200 carrying one well-formed actor resource. -/
def resp_200_one_actor : UpstreamResponse :=
  ⟨some 200, some (Json.obj [("resources", Json.arr [Json.obj [
    ("id", Json.str "adversary-1"), ("name", Json.str "SOME BEAR")]])])⟩

/-- A 200 whose first indicator record has a label without a `"name"`
field. -/
def resp_200_label_without_name : UpstreamResponse :=
  ⟨some 200, some (Json.obj [("resources", Json.arr [Json.obj [
    ("indicator", Json.str "evil.com"), ("type", Json.str "domain"),
    ("labels", Json.arr [Json.obj [("created_on", Json.num 1)]])]])])⟩

/-- A 403 whose single error message contains "Access denied". -/
def resp_403_access_denied : UpstreamResponse :=
  ⟨some 403, some (Json.obj [("errors", Json.arr [Json.obj [
    ("message", Json.str "Access denied: insufficient scopes")]])])⟩

/-! ### Claim theorems -/

/-- Claim C1: the spec says a 403 whose first error message matches neither
authorization substring falls through to the generic
`API Error: 403 - ...` path. The code does not: in `server.py` the
`elif status_code not in (200, 201)` arm is skipped because the `if
status_code == 403` arm was taken, so a non-matching 403 reaches the final
success `return json.dumps(body, indent=2)` — the success rendering of the
error body, which does not start with `API Error` — while the `utils.py`
version returns the access-denied guidance for every 403 without any
substring test. -/
theorem c1_403_nonmatching_hits_success_path :
    format_response_server resp_403_nonmatching none =
      Except.ok (jsonDumps (bodyD resp_403_nonmatching)) ∧
    strStartsB (jsonDumps (bodyD resp_403_nonmatching)) "API Error" = false ∧
    format_response_utils resp_403_nonmatching none =
      Except.ok (access_denied_message_utils "appropriate API scopes"
        "Forbidden by policy") :=
  ⟨rfl, by decide, rfl⟩

/-- Claim C3: the spec says the 403 error-message extraction defaults to
"Unknown error" when the errors list is empty or absent and that no
unhandled-exception branch is reachable. The default only covers an absent
key: a present-but-empty `errors` list makes `[0]` raise `IndexError`
inside both normalizer versions. -/
theorem c3_empty_errors_403_raises :
    format_response_server resp_403_empty_errors none =
      Except.error "list index out of range" ∧
    format_response_utils resp_403_empty_errors none =
      Except.error "list index out of range" :=
  ⟨rfl, rfl⟩

/-- Claim C4: the spec invariant says any field may be absent and handlers
must default rather than fail, but `get_ioc_details` subscripts
`label["name"]` directly in its `mitre_techniques` comprehension: a 200
response whose first resource has a label without a `"name"` field lands in
the exception branch, returning `Error: 'name'` instead of the
`ioc_details` payload. -/
theorem c4_missing_label_name_raises :
    get_ioc_details (fun _ => Except.ok resp_200_label_without_name) "evil.com" =
      "Error: \x27name\x27" := rfl

/-- Claim C5: for every response with status code 200 or 201, both
`format_response` versions reach the success return and render the body —
defaulted to the empty dict only when the `body` key is absent — verbatim
as 2-space-indented JSON, adding, removing and altering nothing. -/
theorem c5_success_round_trip (r : UpstreamResponse) (rs : Option String)
    (h : r.status_code = some 200 ∨ r.status_code = some 201) :
    format_response_server r rs = Except.ok (jsonDumps (bodyD r)) ∧
    format_response_utils r rs = Except.ok (jsonDumps (bodyD r)) := by
  rcases h with h | h <;>
    exact ⟨by simp [format_response_server, h], by simp [format_response_utils, h]⟩

/-- Witness for C5 at a concrete 200 response. -/
theorem c5_success_round_trip_witness :
    format_response_server resp_200_one_actor none =
      Except.ok (jsonDumps (bodyD resp_200_one_actor)) ∧
    format_response_utils resp_200_one_actor none =
      Except.ok (jsonDumps (bodyD resp_200_one_actor)) :=
  c5_success_round_trip resp_200_one_actor none (Or.inl rfl)

/-- Claim C8: the filter builder of `search_iocs` invoked with zero
parameters set passes `None` — not the empty string — to the upstream
client. -/
theorem c8_no_params_no_filter :
    search_iocs_filter none none none none none none none = none := rfl

/-- Claim C9: the filter builder of `search_iocs` invoked with only
`mitre_technique="T1566"` produces exactly the single wildcard clause
`labels.name:*'MitreATTCK/*T1566*'`, with no other clause and no join
operator. -/
theorem c9_mitre_only_filter :
    search_iocs_filter none none none none none none (some "T1566") =
      some "labels.name:*\x27MitreATTCK/*T1566*\x27" := rfl

/-- Claim C10: a filter parameter passed as the empty string contributes no
clause — replacing any combination of empty-string parameters by absent
ones leaves the built filter unchanged — and in particular a call with
every parameter equal to `""` queries upstream with the filter absent. -/
theorem c10_blank_params_ignored :
    (∀ iv it mf tt mc pa mt : Option String,
      search_iocs_filter iv it mf tt mc pa mt =
        search_iocs_filter (blankToNone iv) (blankToNone it) (blankToNone mf)
          (blankToNone tt) (blankToNone mc) (blankToNone pa) (blankToNone mt)) ∧
    search_iocs_filter (some "") (some "") (some "") (some "") (some "")
      (some "") (some "") = none := by
  refine ⟨fun iv it mf tt mc pa mt => ?_, rfl⟩
  simp [search_iocs_filter, optClause_blankToNone]

/-- Claim C2 counterexample: a 201 response — success per the normalizer's
contract — is not reshaped by `list_threat_actors`: the handler's
`if status_code != 200` guard routes it to `format_response`, which returns
the raw normalized body, a string different from the `{"actors": [...]}`
envelope the claim requires. -/
theorem c2_201_returns_raw_body :
    list_threat_actors (Except.ok resp_201_one_actor) =
      jsonDumps (bodyD resp_201_one_actor) ∧
    jsonDumps (bodyD resp_201_one_actor) ≠
      jsonDumps (Json.obj [("actors", Json.arr [Json.obj [
        ("id", Json.str "adversary-1"), ("name", Json.str "SOME BEAR")]])]) :=
  ⟨rfl, by decide⟩

/-- Claim C2 as amended: handlers treat exactly status 200 as success — on
a 200 with truthy `resources`, `list_threat_actors` returns the
`{"actors": [...]}` envelope (and `search_iocs` the `{"iocs": [...]}`
envelope), while a 201 is routed to `format_response` and comes back as the
raw normalized body. -/
theorem c2_success_reshaping :
    (∀ (r : UpstreamResponse) (res : Json), r.status_code = some 200 →
      resourcesOf r = Except.ok res → pyFalsy res = false →
      list_threat_actors (Except.ok r) =
        jsonDumps (Json.obj [("actors", res)])) ∧
    (∀ (r : UpstreamResponse) (res : Json)
      (iv it mf tt mc pa mt : Option String), r.status_code = some 200 →
      resourcesOf r = Except.ok res → pyFalsy res = false →
      search_iocs (fun _ => Except.ok r) iv it mf tt mc pa mt =
        jsonDumps (Json.obj [("iocs", res)])) ∧
    (∀ r : UpstreamResponse, r.status_code = some 201 →
      list_threat_actors (Except.ok r) = jsonDumps (bodyD r)) := by
  refine ⟨?_, ?_, ?_⟩
  · intro r res h200 hres hfal
    simp [list_threat_actors, h200, hres, hfal]
  · intro r res iv it mf tt mc pa mt h200 hres hfal
    simp [search_iocs, h200, hres, hfal]
  · intro r h201
    simp [list_threat_actors, h201, formatOrCaught, format_response_server]

/-- Witness for C2's amended claim at concrete 200 and 201 responses. -/
theorem c2_success_reshaping_witness :
    list_threat_actors (Except.ok resp_200_one_actor) =
      jsonDumps (Json.obj [("actors", Json.arr [Json.obj [
        ("id", Json.str "adversary-1"), ("name", Json.str "SOME BEAR")]])]) ∧
    list_threat_actors (Except.ok resp_201_one_actor) =
      jsonDumps (bodyD resp_201_one_actor) :=
  ⟨c2_success_reshaping.1 resp_200_one_actor _ rfl rfl rfl,
   c2_success_reshaping.2.2 resp_201_one_actor rfl⟩

/-- Claim C6: every exception raised during a handler invocation resolves
to the plain string `Error: {message}`: a raised upstream call in
`list_threat_actors`, in `search_iocs` (whatever the parameters) and in
`get_ioc_details` is caught at the boundary, and so is an exception raised
inside the handler's own body after the call (here the normalizer's
`IndexError` on a 403 with an empty errors list); in the embedding every
handler is total into `String`, so no exception escapes. -/
theorem c6_exceptions_caught :
    (∀ e : String, list_threat_actors (Except.error e) = "Error: " ++ e) ∧
    (∀ (e : String) (iv it mf tt mc pa mt : Option String),
      search_iocs (fun _ => Except.error e) iv it mf tt mc pa mt =
        "Error: " ++ e) ∧
    (∀ e iv : String,
      get_ioc_details (fun _ => Except.error e) iv = "Error: " ++ e) ∧
    list_threat_actors (Except.ok resp_403_empty_errors) =
      "Error: list index out of range" :=
  ⟨fun _ => rfl, fun _ _ _ _ _ _ _ _ => rfl, fun _ _ => rfl, rfl⟩

/-- Claim C7: a 403 whose extracted first error message contains
"access denied" (case-insensitively, exactly the code's check) makes
`format_response` of `server.py` return the guidance string, which contains
the literal substring "API Access Denied (403)", the supplied
required-scope string verbatim (the fallback "appropriate API scopes" when
none is supplied), and the original error text. -/
theorem c7_access_denied_guidance (r : UpstreamResponse) (rs : Option String)
    (msg : String) (h403 : r.status_code = some 403)
    (hmsg : extract_error_field r = Except.ok (Json.str msg))
    (hden : strContainsB (strLower msg) "access denied" = true) :
    format_response_server r rs =
      Except.ok (access_denied_message (scopes_info_of rs) msg) ∧
    strContains (access_denied_message (scopes_info_of rs) msg)
      "API Access Denied (403)" ∧
    strContains (access_denied_message (scopes_info_of rs) msg)
      (rs.getD "appropriate API scopes") ∧
    strContains (access_denied_message (scopes_info_of rs) msg) msg := by
  refine ⟨?_, ?_, ?_, ?_⟩
  · simp [format_response_server, h403, hmsg, hden]
  · unfold access_denied_message
    repeat first
      | exact strContains_self _
      | apply strContains_appendRight
  · cases rs with
    | none =>
        show strContains (access_denied_message (scopes_info_of none) msg)
          "appropriate API scopes"
        unfold access_denied_message scopes_info_of
        repeat first
          | exact strContains_appendLeft _ _ _ (strContains_self _)
          | apply strContains_appendRight
    | some s =>
        by_cases hs : s.isEmpty
        · rw [(String.isEmpty_iff s).mp hs]
          exact strContains_empty _
        · show strContains (access_denied_message (scopes_info_of (some s)) msg) s
          unfold access_denied_message scopes_info_of
          simp only [hs, Bool.false_eq_true, if_false]
          repeat first
            | exact strContains_appendLeft _ _ _ (strContains_self _)
            | apply strContains_appendRight
  · unfold access_denied_message
    exact strContains_appendLeft _ _ _ (strContains_self msg)

/-- Witness for C7 at a concrete 403 response and a concrete scope. -/
theorem c7_access_denied_guidance_witness :
    format_response_server resp_403_access_denied
        (some "ACTORS (FALCON INTELLIGENCE) READ") =
      Except.ok (access_denied_message
        (scopes_info_of (some "ACTORS (FALCON INTELLIGENCE) READ"))
        "Access denied: insufficient scopes") ∧
    strContains (access_denied_message
        (scopes_info_of (some "ACTORS (FALCON INTELLIGENCE) READ"))
        "Access denied: insufficient scopes")
      "API Access Denied (403)" ∧
    strContains (access_denied_message
        (scopes_info_of (some "ACTORS (FALCON INTELLIGENCE) READ"))
        "Access denied: insufficient scopes")
      ((some "ACTORS (FALCON INTELLIGENCE) READ").getD "appropriate API scopes") ∧
    strContains (access_denied_message
        (scopes_info_of (some "ACTORS (FALCON INTELLIGENCE) READ"))
        "Access denied: insufficient scopes")
      "Access denied: insufficient scopes" :=
  c7_access_denied_guidance resp_403_access_denied
    (some "ACTORS (FALCON INTELLIGENCE) READ")
    "Access denied: insufficient scopes" rfl rfl rfl

end Crowdstrike
